import Mathlib

/-!
Verification of the Cryptopia API client (`cryptopia_api.py`).

The development embeds the client shallowly: bytes are `List Nat` (each
entry < 256), machine words are `Nat` reduced modulo `2 ^ 32` where the
source overflows, Python's fallible operations return `Option`/`Except`,
and the wall clock read by `time.time()` is passed in explicitly as an
exact rational.  The cryptographic primitives the source obtains from the
Python standard library (`hashlib.md5`, `hashlib.sha256`, `hmac`,
`base64`, `urllib.parse.quote_plus`) are implemented here in full so that
concrete signatures can be evaluated inside Lean.
-/

/-! ## Bytes and UTF-8 -/

/-- Encoding of one unicode code point as UTF-8 bytes. -/
def utf8EncodeChar (c : Char) : List Nat :=
  let n := c.toNat
  if n < 128 then [n]
  else if n < 2048 then [192 + n / 64, 128 + n % 64]
  else if n < 65536 then [224 + n / 4096, 128 + (n / 64) % 64, 128 + n % 64]
  else [240 + n / 262144, 128 + (n / 4096) % 64, 128 + (n / 64) % 64, 128 + n % 64]

/-- Encoding of a string as its UTF-8 bytes, Python's `str.encode('utf-8')`. -/
def utf8Encode (s : String) : List Nat :=
  (s.toList.map utf8EncodeChar).flatten

/-! ## Base64 -/

/-- Alphabet of standard base64, in value order. -/
def b64Alphabet : List Char :=
  "ABCDEFGHIJKLMNOPQRSTUVWXYZabcdefghijklmnopqrstuvwxyz0123456789+/".toList

/-- Character standing for a 6-bit value in base64 output. -/
def b64CharOf (n : Nat) : Char := b64Alphabet.getD n '?'

/-- Test for membership in the base64 alphabet. -/
def isB64Data (c : Char) : Bool := b64Alphabet.contains c

/-- Value of a base64 alphabet character. -/
def b64Val (c : Char) : Nat := b64Alphabet.indexOf c

/-- Body of base64 encoding: three bytes become four characters, with
a short final group padded by `=`.  Follows Python's `base64.b64encode`. -/
def b64EncodeGo : List Nat → List Char
  | [] => []
  | [b0] => [b64CharOf (b0 / 4), b64CharOf (b0 % 4 * 16), '=', '=']
  | [b0, b1] => [b64CharOf (b0 / 4), b64CharOf (b0 % 4 * 16 + b1 / 16),
      b64CharOf (b1 % 16 * 4), '=']
  | b0 :: b1 :: b2 :: rest =>
      b64CharOf (b0 / 4) :: b64CharOf (b0 % 4 * 16 + b1 / 16) ::
        b64CharOf (b1 % 16 * 4 + b2 / 64) :: b64CharOf (b2 % 64) :: b64EncodeGo rest

/-- Python's `base64.b64encode` (result read back as a string, as the source
does with `.decode('utf-8')`). -/
def b64encode (bs : List Nat) : String := String.mk (b64EncodeGo bs)

/-- Decoding loop of CPython's `binascii.a2b_base64` in its default
non-strict mode, transcribed from `Modules/binascii.c`.  The state is the
position inside the current four-character group (`quad_pos`), the bits
left over from the previous character, and the count of pending pad
characters.  Characters outside the alphabet are skipped; `=` is skipped
while fewer than two data characters of the current group have been seen,
and counts as padding otherwise; a completed pad sequence (two data
characters with two pads, or three with one) ends the input, the rest
being ignored; input ending one to three data characters into a group is
the `binascii.Error` (`none`), whose two CPython message variants are
collapsed into the single `none`. -/
def a2bBase64 : List Char → Nat → Nat → Nat → List Nat → Option (List Nat)
  | [], quad_pos, _, _, acc => if quad_pos == 0 then some acc else none
  | c :: rest, quad_pos, leftchar, pads, acc =>
      if c = '=' then
        if 2 ≤ quad_pos then
          if 4 ≤ quad_pos + pads + 1 then some acc
          else a2bBase64 rest quad_pos leftchar (pads + 1) acc
        else a2bBase64 rest quad_pos leftchar pads acc
      else if isB64Data c then
        match quad_pos with
        | 0 => a2bBase64 rest 1 (b64Val c) 0 acc
        | 1 => a2bBase64 rest 2 (b64Val c % 16) 0 (acc ++ [leftchar * 4 + b64Val c / 16])
        | 2 => a2bBase64 rest 3 (b64Val c % 4) 0 (acc ++ [leftchar * 16 + b64Val c / 4])
        | _ => a2bBase64 rest 0 0 0 (acc ++ [leftchar * 64 + b64Val c])
      else a2bBase64 rest quad_pos leftchar pads acc

/-- Python's `base64.b64decode` with default arguments: `binascii.a2b_base64`
run from the initial state, `none` standing for the `binascii.Error` raised
on data that ends mid-group. -/
def pyB64decode (s : String) : Option (List Nat) :=
  a2bBase64 s.toList 0 0 0 []

/-- Bytes never percent-encoded by `urllib.parse.quote`: ASCII letters,
digits, and `_ . - ~`. -/
def isAlwaysSafeByte (b : Nat) : Bool :=
  (65 ≤ b && b ≤ 90) || (97 ≤ b && b ≤ 122) || (48 ≤ b && b ≤ 57) ||
    b == 95 || b == 46 || b == 45 || b == 126

/-- Uppercase hexadecimal digit. -/
def hexUpper (n : Nat) : Char := "0123456789ABCDEF".toList.getD n '0'

/-- Python's `urllib.parse.quote_plus`: every UTF-8 byte outside the safe
set becomes `%XX` with uppercase hex, and a space becomes `+`. -/
def quote_plus (s : String) : String :=
  String.join ((utf8Encode s).map (fun b =>
    if isAlwaysSafeByte b then String.singleton (Char.ofNat b)
    else if b == 32 then "+"
    else String.mk ['%', hexUpper (b / 16), hexUpper (b % 16)]))

/-! ## MD5 -/

/-- Little-endian byte rendering of a number, `k` bytes wide. -/
def leBytes : Nat → Nat → List Nat
  | 0, _ => []
  | k + 1, n => n % 256 :: leBytes k (n / 256)

/-- Big-endian byte rendering of a number, `k` bytes wide. -/
def beBytes (k n : Nat) : List Nat := (leBytes k n).reverse

/-- Left rotation of a 32-bit word. -/
def rotl32 (x n : Nat) : Nat := (x <<< n) % 4294967296 ||| x >>> (32 - n)

/-- Right rotation of a 32-bit word. -/
def rotr32 (x n : Nat) : Nat := x >>> n ||| (x <<< (32 - n)) % 4294967296

/-- Bitwise complement of a 32-bit word. -/
def not32 (x : Nat) : Nat := 4294967295 - x

/-- Grouping of bytes into 32-bit little-endian words. -/
def wordsLE : List Nat → List Nat
  | b0 :: b1 :: b2 :: b3 :: rest =>
      (b0 + b1 * 256 + b2 * 65536 + b3 * 16777216) :: wordsLE rest
  | _ => []

/-- Grouping of bytes into 32-bit big-endian words. -/
def wordsBE : List Nat → List Nat
  | b0 :: b1 :: b2 :: b3 :: rest =>
      (b0 * 16777216 + b1 * 65536 + b2 * 256 + b3) :: wordsBE rest
  | _ => []

/-- Sine-derived constant table of MD5 (RFC 1321). -/
def md5K : List Nat :=
  [3614090360, 3905402710, 606105819, 3250441966, 4118548399, 1200080426,
   2821735955, 4249261313, 1770035416, 2336552879, 4294925233, 2304563134,
   1804603682, 4254626195, 2792965006, 1236535329, 4129170786, 3225465664,
   643717713, 3921069994, 3593408605, 38016083, 3634488961, 3889429448,
   568446438, 3275163606, 4107603335, 1163531501, 2850285829, 4243563512,
   1735328473, 2368359562, 4294588738, 2272392833, 1839030562, 4259657740,
   2763975236, 1272893353, 4139469664, 3200236656, 681279174, 3936430074,
   3572445317, 76029189, 3654602809, 3873151461, 530742520, 3299628645,
   4096336452, 1126891415, 2878612391, 4237533241, 1700485571, 2399980690,
   4293915773, 2240044497, 1873313359, 4264355552, 2734768916, 1309151649,
   4149444226, 3174756917, 718787259, 3951481745]

/-- Per-round left-rotation amounts of MD5. -/
def md5S : List Nat :=
  [7, 12, 17, 22, 7, 12, 17, 22, 7, 12, 17, 22, 7, 12, 17, 22,
   5, 9, 14, 20, 5, 9, 14, 20, 5, 9, 14, 20, 5, 9, 14, 20,
   4, 11, 16, 23, 4, 11, 16, 23, 4, 11, 16, 23, 4, 11, 16, 23,
   6, 10, 15, 21, 6, 10, 15, 21, 6, 10, 15, 21, 6, 10, 15, 21]

/-- One MD5 round: the nonlinear function and message index depend on the
round number. -/
def md5Step (m : List Nat) (st : Nat × Nat × Nat × Nat) (i : Nat) :
    Nat × Nat × Nat × Nat :=
  let (a, b, c, d) := st
  let f :=
    if i < 16 then b &&& c ||| not32 b &&& d
    else if i < 32 then d &&& b ||| not32 d &&& c
    else if i < 48 then b ^^^ c ^^^ d
    else c ^^^ (b ||| not32 d)
  let g :=
    if i < 16 then i
    else if i < 32 then (5 * i + 1) % 16
    else if i < 48 then (3 * i + 5) % 16
    else 7 * i % 16
  let v := (f + a + md5K.getD i 0 + m.getD g 0) % 4294967296
  (d, (b + rotl32 v (md5S.getD i 0)) % 4294967296, b, c)

/-- Compression of one 64-byte MD5 block into the running state. -/
def md5Compress (st : Nat × Nat × Nat × Nat) (chunk : List Nat) :
    Nat × Nat × Nat × Nat :=
  let m := wordsLE chunk
  let (a, b, c, d) := st
  let (a1, b1, c1, d1) := (List.range 64).foldl (md5Step m) (a, b, c, d)
  ((a + a1) % 4294967296, (b + b1) % 4294967296,
   (c + c1) % 4294967296, (d + d1) % 4294967296)

/-- Merkle–Damgård padding of MD5: a `0x80` byte, zeros to 56 mod 64, then
the bit length as eight little-endian bytes. -/
def md5Pad (msg : List Nat) : List Nat :=
  msg ++ 128 :: List.replicate ((119 - msg.length % 64) % 64) 0 ++
    leBytes 8 (msg.length * 8)

/-- Fold of the compression function over successive 64-byte blocks, with
the block count as structural fuel. -/
def hashBlocks (compress : α → List Nat → α) : Nat → List Nat → α → α
  | 0, _, st => st
  | k + 1, bs, st => hashBlocks compress k (bs.drop 64) (compress st (bs.take 64))

/-- Python's `hashlib.md5(...).digest()` as a list of 16 bytes. -/
def md5 (msg : List Nat) : List Nat :=
  let p := md5Pad msg
  let (a, b, c, d) := hashBlocks md5Compress (p.length / 64) p
    (1732584193, 4023233417, 2562383102, 271733878)
  leBytes 4 a ++ leBytes 4 b ++ leBytes 4 c ++ leBytes 4 d

/-! ## SHA-256 and HMAC -/

/-- Round constant table of SHA-256 (FIPS 180-4). -/
def sha256K : List Nat :=
  [1116352408, 1899447441, 3049323471, 3921009573, 961987163, 1508970993,
   2453635748, 2870763221, 3624381080, 310598401, 607225278, 1426881987,
   1925078388, 2162078206, 2614888103, 3248222580, 3835390401, 4022224774,
   264347078, 604807628, 770255983, 1249150122, 1555081692, 1996064986,
   2554220882, 2821834349, 2952996808, 3210313671, 3336571891, 3584528711,
   113926993, 338241895, 666307205, 773529912, 1294757372, 1396182291,
   1695183700, 1986661051, 2177026350, 2456956037, 2730485921, 2820302411,
   3259730800, 3345764771, 3516065817, 3600352804, 4094571909, 275423344,
   430227734, 506948616, 659060556, 883997877, 958139571, 1322822218,
   1537002063, 1747873779, 1955562222, 2024104815, 2227730452, 2361852424,
   2428436474, 2756734187, 3204031479, 3329325298]

/-- Message-schedule extension of SHA-256: 48 further words from the first
sixteen. -/
def sha256Extend : Nat → List Nat → List Nat
  | 0, w => w
  | k + 1, w =>
      let n := w.length
      let w15 := w.getD (n - 15) 0
      let w2 := w.getD (n - 2) 0
      let s0 := rotr32 w15 7 ^^^ rotr32 w15 18 ^^^ w15 >>> 3
      let s1 := rotr32 w2 17 ^^^ rotr32 w2 19 ^^^ w2 >>> 10
      sha256Extend k (w ++ [(w.getD (n - 16) 0 + s0 + w.getD (n - 7) 0 + s1) % 4294967296])

/-- One SHA-256 round on the eight-word working state. -/
def sha256Step (w : List Nat)
    (st : Nat × Nat × Nat × Nat × Nat × Nat × Nat × Nat) (i : Nat) :
    Nat × Nat × Nat × Nat × Nat × Nat × Nat × Nat :=
  let (a, b, c, d, e, f, g, h) := st
  let s1 := rotr32 e 6 ^^^ rotr32 e 11 ^^^ rotr32 e 25
  let ch := e &&& f ^^^ not32 e &&& g
  let t1 := (h + s1 + ch + sha256K.getD i 0 + w.getD i 0) % 4294967296
  let s0 := rotr32 a 2 ^^^ rotr32 a 13 ^^^ rotr32 a 22
  let maj := a &&& b ^^^ a &&& c ^^^ b &&& c
  let t2 := (s0 + maj) % 4294967296
  ((t1 + t2) % 4294967296, a, b, c, (d + t1) % 4294967296, e, f, g)

/-- Compression of one 64-byte SHA-256 block into the running state. -/
def sha256Compress (st : Nat × Nat × Nat × Nat × Nat × Nat × Nat × Nat)
    (chunk : List Nat) : Nat × Nat × Nat × Nat × Nat × Nat × Nat × Nat :=
  let w := sha256Extend 48 (wordsBE chunk)
  let (a, b, c, d, e, f, g, h) := st
  let (a1, b1, c1, d1, e1, f1, g1, h1) :=
    (List.range 64).foldl (sha256Step w) (a, b, c, d, e, f, g, h)
  ((a + a1) % 4294967296, (b + b1) % 4294967296, (c + c1) % 4294967296,
   (d + d1) % 4294967296, (e + e1) % 4294967296, (f + f1) % 4294967296,
   (g + g1) % 4294967296, (h + h1) % 4294967296)

/-- Merkle–Damgård padding of SHA-256: as for MD5 but with the bit length
big-endian. -/
def sha256Pad (msg : List Nat) : List Nat :=
  msg ++ 128 :: List.replicate ((119 - msg.length % 64) % 64) 0 ++
    beBytes 8 (msg.length * 8)

/-- Python's `hashlib.sha256(...).digest()` as a list of 32 bytes. -/
def sha256 (msg : List Nat) : List Nat :=
  let p := sha256Pad msg
  let (a, b, c, d, e, f, g, h) := hashBlocks sha256Compress (p.length / 64) p
    (1779033703, 3144134277, 1013904242, 2773480762,
     1359893119, 2600822924, 528734635, 1541459225)
  beBytes 4 a ++ beBytes 4 b ++ beBytes 4 c ++ beBytes 4 d ++
    beBytes 4 e ++ beBytes 4 f ++ beBytes 4 g ++ beBytes 4 h

/-- Python's `hmac.new(key, msg, hashlib.sha256).digest()` (RFC 2104 with a
64-byte block). -/
def hmacSha256 (key msg : List Nat) : List Nat :=
  let k0 := if 64 < key.length then sha256 key else key
  let kp := k0 ++ List.replicate (64 - k0.length) 0
  sha256 (kp.map (fun b => b ^^^ 92) ++ sha256 (kp.map (fun b => b ^^^ 54) ++ msg))

/-! ## Python values and the response envelope -/

/-- Values of the JSON fragment of Python the client handles: `None`,
booleans, numbers (as exact rationals), strings, lists and dicts (as
insertion-ordered association lists). -/
inductive Json where
  | null
  | bool (b : Bool)
  | num (q : ℚ)
  | str (s : String)
  | arr (xs : List Json)
  | obj (fields : List (String × Json))

/-- Truthiness of a Python value, as tested by `if value:`. -/
def pyTruthy : Json → Bool
  | .null => false
  | .bool b => b
  | .num q => decide (q ≠ 0)
  | .str s => s != ""
  | .arr xs => !xs.isEmpty
  | .obj fs => !fs.isEmpty

/-- Serialization by `json.dumps` with default arguments, for values whose
strings need no escape sequences; numbers are rendered as rationals, an
abstraction of Python's float formatting that no claim depends on. -/
def pyJsonDumps : Json → String
  | .null => "null"
  | .bool true => "true"
  | .bool false => "false"
  | .num q => toString q
  | .str s => "\"" ++ s ++ "\""
  | .arr xs => "[" ++ String.intercalate ", "
      (xs.attach.map (fun x => pyJsonDumps x.1)) ++ "]"
  | .obj fs => "\x7b" ++ String.intercalate ", "
      (fs.attach.map (fun p => "\"" ++ p.1.1 ++ "\": " ++ pyJsonDumps p.1.2)) ++ "\x7d"
decreasing_by
  · rcases x with ⟨j, hj⟩
    have := List.sizeOf_lt_of_mem hj
    simp only [Json.arr.sizeOf_spec]
    omega
  · rcases p with ⟨⟨u, v⟩, hp⟩
    have := List.sizeOf_lt_of_mem hp
    simp only [Prod.mk.sizeOf_spec] at this
    simp only [Json.obj.sizeOf_spec]
    omega

/-- Representation by Python's `repr` of a string containing no character
that needs a backslash escape: single quotes, or double quotes when the
string itself contains a single quote and no double quote. -/
def pyReprStr (s : String) : String :=
  let sq := String.singleton (Char.ofNat 39)
  let dq := String.singleton (Char.ofNat 34)
  if s.toList.contains (Char.ofNat 39) && !(s.toList.contains (Char.ofNat 34)) then
    dq ++ s ++ dq
  else sq ++ s ++ sq

/-- Rendering by `pprint.pformat` of a small value: scalars print as their
`repr` (`None`, `True`, `False`, quoted strings), containers recursively. -/
def pformat : Json → String
  | .null => "None"
  | .bool true => "True"
  | .bool false => "False"
  | .num q => toString q
  | .str s => pyReprStr s
  | .arr xs => "[" ++ String.intercalate ", "
      (xs.attach.map (fun x => pformat x.1)) ++ "]"
  | .obj fs => "\x7b" ++ String.intercalate ", "
      (fs.attach.map (fun p => pyReprStr p.1.1 ++ ": " ++ pformat p.1.2)) ++ "\x7d"
decreasing_by
  · rcases x with ⟨j, hj⟩
    have := List.sizeOf_lt_of_mem hj
    simp only [Json.arr.sizeOf_spec]
    omega
  · rcases p with ⟨⟨u, v⟩, hp⟩
    have := List.sizeOf_lt_of_mem hp
    simp only [Prod.mk.sizeOf_spec] at this
    simp only [Json.obj.sizeOf_spec]
    omega

/-- Exceptions the client can raise: Python's `KeyError` from envelope
subscripts, `CryptopiaAPIException`, the bare `Exception` of the unknown
feature branch, and `binascii.Error` from base64 decoding. -/
inductive PyError where
  | keyError (key : String)
  | cryptopiaAPIException (function_name : String) (error : Json)
  | unknownFeature (msg : String)
  | binasciiError (msg : String)

/-- Test for the `CryptopiaAPIException` constructor. -/
def isApiException : PyError → Bool
  | .cryptopiaAPIException _ _ => true
  | _ => false

/-- Message of a raised `CryptopiaAPIException`, its `__str__`:
`CryptopiaAPIException(function_name={name!r}): {pformat(error)}`. -/
def errMessage (function_name : String) (error : Json) : String :=
  "CryptopiaAPIException(function_name=" ++ pyReprStr function_name ++ "): "
    ++ pformat error

/-- Response unwrapper `_wrapper` of the `unwrap` decorator, applied to a
parsed response envelope.  The first component is the returned payload or
the raised exception; the second lists the values printed by the
informational `Message` branch. -/
def unwrap (fn_name : String) (response : List (String × Json)) :
    Except PyError Json × List Json :=
  match response.lookup "Success" with
  | none => (.error (.keyError "Success"), [])
  | some s =>
    if pyTruthy s then
      let notices := match response.lookup "Message" with
        | some m => if pyTruthy m then [m] else []
        | none => []
      match response.lookup "Data" with
      | none => (.error (.keyError "Data"), notices)
      | some d => (.ok d, notices)
    else
      match response.lookup "Error" with
      | none => (.error (.keyError "Error"), [])
      | some e => (.error (.cryptopiaAPIException fn_name e), [])

/-! ## The client -/

/-- Client instance state: the credential pair and the two operation
catalogs assigned in `__init__`. -/
structure Api where
  key : String
  secret : String
  public : List String
  «private» : List String

/-- Tuple assigned to `self.public` in `Api.__init__`. -/
def publicOps : List String :=
  ["GetCurrencies", "GetTradePairs", "GetMarkets", "GetMarket",
   "GetMarketHistory", "GetMarketOrders", "GetMarketOrderGroups"]

/-- Tuple assigned to `self.private` in `Api.__init__`. -/
def privateOps : List String :=
  ["GetBalance", "GetDepositAddress", "GetOpenOrders", "GetTradeHistory",
   "GetTransactions", "SubmitTrade", "CancelTrade", "SubmitTip",
   "SubmitWithdraw", "SubmitTransfer"]

/-- Constructor `Api.__init__(self, key, secret)`. -/
def Api.init (key secret : String) : Api :=
  ⟨key, secret, publicOps, privateOps⟩

/-- Truncation of a rational toward zero, Python's `int(...)` on a
number: T-division of the numerator by the (positive) denominator. -/
def pytrunc (q : ℚ) : ℤ := Int.tdiv q.num q.den

/-- Lowercasing a string character by character, Python's `str.lower` on
the ASCII strings at hand (core `String.map` recurses on byte positions
and does not evaluate inside the kernel, hence this list-based form). -/
def strLower (s : String) : String := String.mk (s.toList.map Char.toLower)

/-- Numeric value of the nonce generated at clock reading `t` (seconds
since the epoch, as an exact rational): `int(time.time() * 100000)`. -/
def nonceVal (t : ℚ) : ℤ := pytrunc (t * 100000)

/-- Nonce string `str(int(time.time() * 100000))` of `secure_headers`. -/
def nonceOf (t : ℚ) : String := toString (nonceVal t)

/-- Method `Api.secure_headers(self, url, post_data)`, with the clock
reading `t` passed explicitly in place of `time.time()`.  `none` from
decoding the secret stands for the `binascii.Error` Python raises there,
and it aborts the call exactly as an uncaught exception would. -/
def Api.secure_headers (self : Api) (t : ℚ) (url post_data : String) :
    Except PyError (List (String × String)) :=
  let key := self.key
  let nonce := nonceOf t
  let hashed_post_params := b64encode (md5 (utf8Encode post_data))
  let signature := utf8Encode
    (key ++ "POST" ++ strLower (quote_plus url) ++ nonce ++ hashed_post_params)
  match pyB64decode self.secret with
  | none => .error (.binasciiError "Incorrect padding")
  | some rawSecret =>
    let hmacsignature := b64encode (hmacSha256 rawSecret signature)
    .ok [("Authorization", "amx " ++ key ++ ":" ++ hmacsignature ++ ":" ++ nonce),
         ("Content-Type", "application/json; charset=utf-8")]

/-- Single HTTP request the dispatcher hands to the `requests` library:
either `requests.get(url, params=...)` with a plain string as `params`, or
`requests.post(url, data=..., headers=...)`. -/
inductive HttpCall where
  | get (url : String) (params : String)
  | post (url : String) (data : String) (headers : List (String × String))

/-- Method `Api.api_query` before decoration: classifies the feature and
produces the one HTTP call the body would issue, or the raised error.
`get_parameters` is the optional dict of query parameters and
`post_parameters` the body value passed to `json.dumps` (Python's `None`
default is `Json.null`). -/
def Api.api_query (self : Api) (t : ℚ) (feature_requested : String)
    (get_parameters : Option (List (String × String)))
    (post_parameters : Json) : Except PyError HttpCall :=
  if feature_requested ∈ self.«private» then
    let url := "https://www.cryptopia.co.nz/Api/" ++ feature_requested
    let post_data := pyJsonDumps post_parameters
    match self.secure_headers t url post_data with
    | .error e => .error e
    | .ok headers => .ok (.post url post_data headers)
  else if feature_requested ∈ self.public then
    let gp := match get_parameters with
      | some d => String.intercalate "/" (d.map Prod.snd)
      | none => ""
    .ok (.get ("https://www.cryptopia.co.nz/Api/" ++ feature_requested ++ "/" ++ gp) gp)
  else
    .error (.unknownFeature ("Unknown feature: " ++ feature_requested ++ "."))

/-- URL of a call as the `requests` library prepares it when `params` is a
plain string: a non-empty string is appended after `?`, an empty one
leaves the URL unchanged, and a POST body never alters the URL. -/
def preparedUrl : HttpCall → String
  | .get url params => if params = "" then url else url ++ "?" ++ params
  | .post url _ _ => url

/-- Dispatcher as callers see it: the source applies the `unwrap`
decorator to `api_query`, so the wrapped function's `fn.__name__` is the
literal string "api_query".  `envelope` stands for the parsed JSON body
the network returns for the issued call; when classification raises, no
call is made and the envelope is never consulted. -/
def api_query_unwrapped (self : Api) (t : ℚ) (feature_requested : String)
    (get_parameters : Option (List (String × String))) (post_parameters : Json)
    (envelope : List (String × Json)) : Except PyError Json × List Json :=
  match self.api_query t feature_requested get_parameters post_parameters with
  | .error e => (.error e, [])
  | .ok _ => unwrap "api_query" envelope

/-- State-passing form of the dispatcher.  The method body only reads
`self` and contains no attribute assignment, so the translation threads
the instance through unchanged and returns it alongside the result. -/
def Api.api_queryS (self : Api) (t : ℚ) (feature_requested : String)
    (get_parameters : Option (List (String × String)))
    (post_parameters : Json) : (Except PyError HttpCall) × Api :=
  (self.api_query t feature_requested get_parameters post_parameters, self)

/-- State-passing form of the signer, likewise free of attribute
assignments. -/
def Api.secure_headersS (self : Api) (t : ℚ) (url post_data : String) :
    (Except PyError (List (String × String))) × Api :=
  (self.secure_headers t url post_data, self)

/-! ## Helper lemmas -/

/-- Disjointness of the two operation catalogs of `__init__`. -/
theorem public_not_private : ∀ f ∈ publicOps, f ∉ privateOps := by decide

/-- Truncation agrees with the floor on nonnegative rationals. -/
theorem pytrunc_eq_floor (q : ℚ) (h : 0 ≤ q) : pytrunc q = ⌊q⌋ := by
  unfold pytrunc
  rw [Int.tdiv_eq_ediv (Rat.num_nonneg.mpr h) (Int.natCast_nonneg q.den)]
  exact Rat.floor_def.symm

/-- Truncation of a natural-number rational is that number. -/
theorem pytrunc_natCast (n : ℕ) : pytrunc ((n : ℚ)) = (n : ℤ) := by
  unfold pytrunc
  rw [Rat.num_natCast, Rat.den_natCast]
  simp [Int.tdiv_one]

/-- Nonce evaluation: when the clock reading times 100000 is the natural
number `n`, the nonce is the decimal string of `n`. -/
theorem nonceOf_eq (t : ℚ) (n : ℕ) (h : t * 100000 = (n : ℚ)) :
    nonceOf t = toString ((n : ℤ)) := by
  unfold nonceOf nonceVal
  rw [h, pytrunc_natCast]

/-- Signer on a decodable secret: the headers it builds, spelled out. -/
theorem secure_headers_ok (key secret : String) (t : ℚ) (url body : String)
    (dk : List Nat) (h : pyB64decode secret = some dk) :
    (Api.init key secret).secure_headers t url body =
      Except.ok [("Authorization", "amx " ++ key ++ ":" ++
          b64encode (hmacSha256 dk (utf8Encode (key ++ "POST" ++
            strLower (quote_plus url) ++ nonceOf t ++
            b64encode (md5 (utf8Encode body))))) ++ ":" ++ nonceOf t),
        ("Content-Type", "application/json; charset=utf-8")] := by
  simp only [Api.secure_headers, Api.init]
  rw [h]

/-- Dispatcher on a public feature with a parameter dict present. -/
theorem api_query_public_some (key secret : String) (t : ℚ) (f : String)
    (d : List (String × String)) (pp : Json) (hf : f ∈ publicOps) :
    (Api.init key secret).api_query t f (some d) pp =
      Except.ok (HttpCall.get
        ("https://www.cryptopia.co.nz/Api/" ++ f ++ "/" ++
          String.intercalate "/" (d.map Prod.snd))
        (String.intercalate "/" (d.map Prod.snd))) := by
  have hp : f ∉ privateOps := public_not_private f hf
  simp only [Api.api_query, Api.init]
  rw [if_neg hp, if_pos hf]

/-- Dispatcher on a public feature with no parameter dict. -/
theorem api_query_public_none (key secret : String) (t : ℚ) (f : String)
    (pp : Json) (hf : f ∈ publicOps) :
    (Api.init key secret).api_query t f none pp =
      Except.ok (HttpCall.get ("https://www.cryptopia.co.nz/Api/" ++ f ++ "/") "") := by
  have hp : f ∉ privateOps := public_not_private f hf
  simp only [Api.api_query, Api.init]
  rw [if_neg hp, if_pos hf]
  rw [String.append_empty]

/-- Dispatcher on a private feature: body serialization, signing, POST. -/
theorem api_query_private (key secret : String) (t : ℚ) (f : String)
    (gp : Option (List (String × String))) (pp : Json) (hf : f ∈ privateOps) :
    (Api.init key secret).api_query t f gp pp =
      match (Api.init key secret).secure_headers t
          ("https://www.cryptopia.co.nz/Api/" ++ f) (pyJsonDumps pp) with
      | .error e => .error e
      | .ok headers => .ok (.post ("https://www.cryptopia.co.nz/Api/" ++ f)
          (pyJsonDumps pp) headers) := by
  simp only [Api.api_query, Api.init]
  rw [if_pos hf]

/-- Unwrapper on an envelope whose success flag is present and falsy and
whose `Error` field is present. -/
theorem unwrap_failure (f : String) (d : List (String × Json)) (v e : Json)
    (hS : d.lookup "Success" = some v) (hT : pyTruthy v = false)
    (hE : d.lookup "Error" = some e) :
    unwrap f d = (Except.error (PyError.cryptopiaAPIException f e), []) := by
  simp [unwrap, hS, hT, hE]

/-- Unwrapper on an envelope whose success flag is present and truthy and
whose `Data` field is present. -/
theorem unwrap_ok (f : String) (d : List (String × Json)) (v p : Json)
    (hS : d.lookup "Success" = some v) (hT : pyTruthy v = true)
    (hD : d.lookup "Data" = some p) :
    (unwrap f d).1 = Except.ok p := by
  simp [unwrap, hS, hT, hD]

/-- Unwrapper notices: a present truthy message is printed whatever the
`Data` lookup does. -/
theorem unwrap_notice (f : String) (d : List (String × Json)) (v m : Json)
    (hS : d.lookup "Success" = some v) (hT : pyTruthy v = true)
    (hM : d.lookup "Message" = some m) (hTm : pyTruthy m = true) :
    (unwrap f d).2 = [m] := by
  cases hD : d.lookup "Data" <;> simp [unwrap, hS, hT, hM, hTm, hD]

/-! ## Claims -/

/-- Claim C2, as stated, is false on two counts at concrete inputs: an
envelope with the success flag absent raises a `KeyError`, not the typed
error; and the typed error raised for a falsy success flag records the
decorated function's name "api_query", which differs from the name of the
operation invoked ("GetCurrencies" here). -/
theorem claim2_counterexample :
    (unwrap "api_query" [("Error", Json.str "x")]).1 =
        Except.error (PyError.keyError "Success") ∧
    isApiException (PyError.keyError "Success") = false ∧
    (api_query_unwrapped (Api.init "k" "s") 1 "GetCurrencies" none Json.null
        [("Success", Json.bool false), ("Error", Json.str "Insufficient Funds")]).1 =
      Except.error (PyError.cryptopiaAPIException "api_query"
        (Json.str "Insufficient Funds")) ∧
    ("api_query" == "GetCurrencies") = false :=
  ⟨rfl, rfl, rfl, rfl⟩

/-- Claim C2, amended: whenever the success flag is present and falsy and
the `Error` field is present, the unwrapper raises `CryptopiaAPIException`
carrying the decorated function's name — always the literal "api_query",
the one decorated dispatcher, rather than the specific operation invoked —
and the envelope's `Error` detail; an envelope with the success flag
absent raises a `KeyError` instead.  For the envelope with `Success:
false` and `Error: "Insufficient Funds"`, the error's message contains
"Insufficient Funds". -/
theorem claim2 :
    (∀ (f : String) (d : List (String × Json)) (v e : Json),
      d.lookup "Success" = some v → pyTruthy v = false →
      d.lookup "Error" = some e →
      (unwrap f d).1 = Except.error (PyError.cryptopiaAPIException f e)) ∧
    (∀ (key secret : String) (t : ℚ) (gp : Option (List (String × String)))
      (pp : Json) (env : List (String × Json)) (v e : Json),
      env.lookup "Success" = some v → pyTruthy v = false →
      env.lookup "Error" = some e →
      (api_query_unwrapped (Api.init key secret) t "GetCurrencies" gp pp env).1 =
        Except.error (PyError.cryptopiaAPIException "api_query" e)) ∧
    (∀ (d : List (String × Json)),
      d.lookup "Success" = none → (unwrap "api_query" d).1 =
        Except.error (PyError.keyError "Success")) ∧
    (∃ pre post : String,
      errMessage "api_query" (Json.str "Insufficient Funds") =
        pre ++ "Insufficient Funds" ++ post) := by
  refine ⟨?_, ?_, ?_, ?_⟩
  · intro f d v e hS hT hE
    rw [unwrap_failure f d v e hS hT hE]
  · intro key secret t gp pp env v e hS hT hE
    unfold api_query_unwrapped
    cases gp with
    | none =>
      rw [api_query_public_none key secret t "GetCurrencies" pp (by decide)]
      rw [unwrap_failure "api_query" env v e hS hT hE]
    | some d =>
      rw [api_query_public_some key secret t "GetCurrencies" d pp (by decide)]
      rw [unwrap_failure "api_query" env v e hS hT hE]
  · intro d hS
    simp [unwrap, hS]
  · refine ⟨"CryptopiaAPIException(function_name='api_query'): '", "'", ?_⟩
    simp only [errMessage, pformat]
    decide

/-- Witness for claim C2 at the envelope of the spec's example. -/
theorem claim2_witness :
    (unwrap "api_query"
        [("Success", Json.bool false), ("Error", Json.str "Insufficient Funds")]).1 =
      Except.error (PyError.cryptopiaAPIException "api_query"
        (Json.str "Insufficient Funds")) :=
  claim2.1 "api_query"
    [("Success", Json.bool false), ("Error", Json.str "Insufficient Funds")]
    (Json.bool false) (Json.str "Insufficient Funds") rfl rfl rfl

/-- Claim C3: a feature name in neither catalog makes the dispatcher raise
the unknown-feature error; no GET or POST call is constructed, and the
decorated dispatcher returns that same error without consulting any
response envelope. -/
theorem claim3 :
    ∀ (key secret : String) (t : ℚ) (f : String)
      (gp : Option (List (String × String))) (pp : Json)
      (env : List (String × Json)),
      f ∉ publicOps → f ∉ privateOps →
      (Api.init key secret).api_query t f gp pp =
        Except.error (PyError.unknownFeature ("Unknown feature: " ++ f ++ ".")) ∧
      (api_query_unwrapped (Api.init key secret) t f gp pp env).1 =
        Except.error (PyError.unknownFeature ("Unknown feature: " ++ f ++ ".")) := by
  intro key secret t f gp pp env hpub hpriv
  have hq : (Api.init key secret).api_query t f gp pp =
      Except.error (PyError.unknownFeature ("Unknown feature: " ++ f ++ ".")) := by
    simp only [Api.api_query, Api.init]
    rw [if_neg hpriv, if_neg hpub]
  refine ⟨hq, ?_⟩
  unfold api_query_unwrapped
  rw [hq]

/-- Witness for claim C3 at the feature name "Foo" and a would-be
successful envelope, which the dispatcher never reads. -/
theorem claim3_witness :
    (Api.init "k" "s").api_query 1 "Foo" none Json.null =
      Except.error (PyError.unknownFeature "Unknown feature: Foo.") ∧
    (api_query_unwrapped (Api.init "k" "s") 1 "Foo" none Json.null
        [("Success", Json.bool true), ("Data", Json.null)]).1 =
      Except.error (PyError.unknownFeature "Unknown feature: Foo.") :=
  claim3 "k" "s" 1 "Foo" none Json.null
    [("Success", Json.bool true), ("Data", Json.null)]
    (by decide) (by decide)

/-- Claim C4: a truthy success flag makes the unwrapper return the `Data`
payload unchanged, whatever the `Message` field holds — a present truthy
message is only printed, never altering the result — and a null `Data` is
returned as null rather than raising. -/
theorem claim4 :
    ∀ (f : String) (d : List (String × Json)) (v p : Json),
      d.lookup "Success" = some v → pyTruthy v = true →
      d.lookup "Data" = some p →
      (unwrap f d).1 = Except.ok p ∧
      (∀ m : Json, d.lookup "Message" = some m → pyTruthy m = true →
        (unwrap f d).2 = [m]) := by
  intro f d v p hS hT hD
  refine ⟨unwrap_ok f d v p hS hT hD, ?_⟩
  intro m hM hTm
  exact unwrap_notice f d v m hS hT hM hTm

/-- Witness for claim C4 at the spec's two example envelopes: a null
payload with a truthy message, and a dict payload. -/
theorem claim4_witness :
    (unwrap "api_query" [("Success", Json.bool true), ("Data", Json.null),
        ("Message", Json.str "ok")]).1 = Except.ok Json.null ∧
    (unwrap "api_query" [("Success", Json.bool true), ("Data", Json.null),
        ("Message", Json.str "ok")]).2 = [Json.str "ok"] ∧
    (unwrap "api_query" [("Success", Json.bool true),
        ("Data", Json.obj [("Balance", Json.num (3/2))]),
        ("Message", Json.str "ok")]).1 =
      Except.ok (Json.obj [("Balance", Json.num (3/2))]) :=
  ⟨(claim4 "api_query" [("Success", Json.bool true), ("Data", Json.null),
      ("Message", Json.str "ok")] (Json.bool true) Json.null rfl rfl rfl).1,
   (claim4 "api_query" [("Success", Json.bool true), ("Data", Json.null),
      ("Message", Json.str "ok")] (Json.bool true) Json.null rfl rfl rfl).2
     (Json.str "ok") rfl rfl,
   (claim4 "api_query" [("Success", Json.bool true),
      ("Data", Json.obj [("Balance", Json.num (3/2))]),
      ("Message", Json.str "ok")] (Json.bool true)
      (Json.obj [("Balance", Json.num (3/2))]) rfl rfl rfl).1⟩

/-- Claim C5: the nonce is the decimal string of the truncation of the
clock reading times 100000, and clock readings at least one tick
(1/100000 s) apart yield strictly increasing nonce values. -/
theorem claim5 :
    (∀ t : ℚ, nonceOf t = toString (pytrunc (t * 100000))) ∧
    (∀ t1 t2 : ℚ, 0 ≤ t1 → t1 + 1 / 100000 ≤ t2 → nonceVal t1 < nonceVal t2) := by
  constructor
  · intro t
    rfl
  · intro t1 t2 h0 h
    have h02 : (0:ℚ) ≤ t2 := by linarith
    have h1 : (0:ℚ) ≤ t1 * 100000 := by positivity
    have h2 : (0:ℚ) ≤ t2 * 100000 := mul_nonneg h02 (by norm_num)
    have h3 : t1 * 100000 + 1 ≤ t2 * 100000 := by linarith
    unfold nonceVal
    rw [pytrunc_eq_floor _ h1, pytrunc_eq_floor _ h2]
    have h4 : ⌊t1 * 100000⌋ + 1 ≤ ⌊t2 * 100000⌋ := by
      calc ⌊t1 * 100000⌋ + 1 = ⌊t1 * 100000 + 1⌋ := (Int.floor_add_one _).symm
        _ ≤ ⌊t2 * 100000⌋ := Int.floor_le_floor h3
    omega

/-- Witness for claim C5 at clock readings one second apart. -/
theorem claim5_witness :
    (0:ℚ) ≤ 1 ∧ (1:ℚ) + 1 / 100000 ≤ 2 ∧ nonceVal 1 < nonceVal 2 :=
  ⟨by norm_num, by norm_num, claim5.2 1 2 (by norm_num) (by norm_num)⟩

/-- Claim C7: a public call's URL is the base path, the feature name and
the parameter values joined by "/" in insertion order — values only, never
key names — issued as a GET; an absent parameter dict joins to the empty
string. -/
theorem claim7 :
    ∀ (key secret : String) (t : ℚ) (f : String)
      (d : List (String × String)) (pp : Json),
      f ∈ publicOps →
      (Api.init key secret).api_query t f (some d) pp =
        Except.ok (HttpCall.get
          ("https://www.cryptopia.co.nz/Api/" ++ f ++ "/" ++
            String.intercalate "/" (d.map Prod.snd))
          (String.intercalate "/" (d.map Prod.snd))) ∧
      (Api.init key secret).api_query t f none pp =
        Except.ok (HttpCall.get ("https://www.cryptopia.co.nz/Api/" ++ f ++ "/") "") := by
  intro key secret t f d pp hf
  exact ⟨api_query_public_some key secret t f d pp hf,
    api_query_public_none key secret t f pp hf⟩

/-- Witness for claim C7 at `GetMarket` with one parameter, and with the
dict absent. -/
theorem claim7_witness :
    (Api.init "k" "s").api_query 1 "GetMarket"
        (some [("market", "BTC_USDT")]) Json.null =
      Except.ok (HttpCall.get
        "https://www.cryptopia.co.nz/Api/GetMarket/BTC_USDT" "BTC_USDT") ∧
    (Api.init "k" "s").api_query 1 "GetMarket" none Json.null =
      Except.ok (HttpCall.get "https://www.cryptopia.co.nz/Api/GetMarket/" "") := by
  have h := claim7 "k" "s" 1 "GetMarket" [("market", "BTC_USDT")] Json.null (by decide)
  exact ⟨h.1.trans (by rfl), h.2⟩

/-- Claim C8: no operation mutates the instance: the dispatcher and the
signer thread the client state through unchanged, so the credential pair
of a client is identical before and after every call. -/
theorem claim8 :
    ∀ (api : Api) (t : ℚ) (f : String) (gp : Option (List (String × String)))
      (pp : Json) (url post_data : String),
      (api.api_queryS t f gp pp).2 = api ∧
      (api.api_queryS t f gp pp).2.key = api.key ∧
      (api.api_queryS t f gp pp).2.secret = api.secret ∧
      (api.secure_headersS t url post_data).2 = api ∧
      (api.secure_headersS t url post_data).2.key = api.key ∧
      (api.secure_headersS t url post_data).2.secret = api.secret :=
  fun _ _ _ _ _ _ _ => ⟨rfl, rfl, rfl, rfl, rfl, rfl⟩

/-- Claim C9: on a public call with a non-empty parameter dict the
dispatcher hands the slash-joined value string to the GET both as the last
path segment of the URL and as the `params` argument, and (as the
`requests` library prepares a string `params`) the same values are
appended a second time after `?` whenever the joined string is
non-empty. -/
theorem claim9 :
    ∀ (key secret : String) (t : ℚ) (f : String)
      (d : List (String × String)) (pp : Json),
      f ∈ publicOps → d ≠ [] →
      (Api.init key secret).api_query t f (some d) pp =
        Except.ok (HttpCall.get
          ("https://www.cryptopia.co.nz/Api/" ++ f ++ "/" ++
            String.intercalate "/" (d.map Prod.snd))
          (String.intercalate "/" (d.map Prod.snd))) ∧
      (String.intercalate "/" (d.map Prod.snd) ≠ "" →
        preparedUrl (HttpCall.get
          ("https://www.cryptopia.co.nz/Api/" ++ f ++ "/" ++
            String.intercalate "/" (d.map Prod.snd))
          (String.intercalate "/" (d.map Prod.snd))) =
        "https://www.cryptopia.co.nz/Api/" ++ f ++ "/" ++
          String.intercalate "/" (d.map Prod.snd) ++ "?" ++
          String.intercalate "/" (d.map Prod.snd)) := by
  intro key secret t f d pp hf _
  refine ⟨api_query_public_some key secret t f d pp hf, ?_⟩
  intro hj
  simp only [preparedUrl]
  rw [if_neg hj]

/-- Witness for claim C9 at `GetMarketHistory` with one parameter. -/
theorem claim9_witness :
    (Api.init "k" "s").api_query 1 "GetMarketHistory"
        (some [("market", "BTC_USDT")]) Json.null =
      Except.ok (HttpCall.get
        ("https://www.cryptopia.co.nz/Api/" ++ "GetMarketHistory" ++ "/" ++
          String.intercalate "/" ([("market", "BTC_USDT")].map Prod.snd))
        (String.intercalate "/" ([("market", "BTC_USDT")].map Prod.snd))) ∧
    preparedUrl (HttpCall.get
        ("https://www.cryptopia.co.nz/Api/" ++ "GetMarketHistory" ++ "/" ++
          String.intercalate "/" ([("market", "BTC_USDT")].map Prod.snd))
        (String.intercalate "/" ([("market", "BTC_USDT")].map Prod.snd))) =
      "https://www.cryptopia.co.nz/Api/" ++ "GetMarketHistory" ++ "/" ++
        String.intercalate "/" ([("market", "BTC_USDT")].map Prod.snd) ++ "?" ++
        String.intercalate "/" ([("market", "BTC_USDT")].map Prod.snd) := by
  have h := claim9 "k" "s" 1 "GetMarketHistory" [("market", "BTC_USDT")] Json.null
    (by decide) (by decide)
  exact ⟨h.1, h.2 (by decide)⟩

set_option maxRecDepth 40000 in
set_option maxHeartbeats 2000000 in
/-- Claim C1: on any decodable secret the signer emits exactly the
authorization header `amx {key}:{S}:{nonce}` — `S` the base64 HMAC-SHA256,
keyed by the base64-decoded secret, of the UTF-8 bytes of the
separator-free concatenation of key, "POST", the percent-encoded
lowercased URL, the nonce, and the base64 MD5 of the body — together with
the JSON/UTF-8 content type; and at a fixed clock reading the produced
header matches a precomputed reference value for a known
(key, secret, URL, body) tuple. -/
theorem claim1 :
    (∀ (key secret url body : String) (t : ℚ) (dk : List Nat),
      pyB64decode secret = some dk →
      (Api.init key secret).secure_headers t url body =
        Except.ok [("Authorization", "amx " ++ key ++ ":" ++
            b64encode (hmacSha256 dk (utf8Encode (key ++ "POST" ++
              strLower (quote_plus url) ++ nonceOf t ++
              b64encode (md5 (utf8Encode body))))) ++ ":" ++ nonceOf t),
          ("Content-Type", "application/json; charset=utf-8")]) ∧
    (Api.init "apikey" "dG9wc2VjcmV0").secure_headers 1700000000
        "https://www.cryptopia.co.nz/Api/GetBalance" "\x7b\"Currency\": \"BTC\"\x7d" =
      Except.ok [("Authorization",
          "amx apikey:NZMB/jt2o8jIR/vKhOTLG+WCyzksrvwbU4BlTpJulg4=:170000000000000"),
        ("Content-Type", "application/json; charset=utf-8")] := by
  constructor
  · intro key secret url body t dk h
    exact secure_headers_ok key secret t url body dk h
  · rw [secure_headers_ok "apikey" "dG9wc2VjcmV0" 1700000000
      "https://www.cryptopia.co.nz/Api/GetBalance" "\x7b\"Currency\": \"BTC\"\x7d"
      [116, 111, 112, 115, 101, 99, 114, 101, 116] (by decide)]
    rw [nonceOf_eq 1700000000 170000000000000 (by norm_num)]
    rw [(by decide : toString ((170000000000000 : ℕ) : ℤ) = "170000000000000")]
    rw [(by decide : strLower (quote_plus "https://www.cryptopia.co.nz/Api/GetBalance") =
      "https%3a%2f%2fwww.cryptopia.co.nz%2fapi%2fgetbalance")]
    rw [(by decide : b64encode (md5 (utf8Encode "\x7b\"Currency\": \"BTC\"\x7d")) =
      "EUDBwgzumGmvJNkCtGBHDQ==")]
    rw [(by decide : utf8Encode ("apikey" ++ "POST" ++
      "https%3a%2f%2fwww.cryptopia.co.nz%2fapi%2fgetbalance" ++ "170000000000000" ++
      "EUDBwgzumGmvJNkCtGBHDQ==") =
      [97, 112, 105, 107, 101, 121, 80, 79, 83, 84, 104, 116, 116, 112, 115, 37,
       51, 97, 37, 50, 102, 37, 50, 102, 119, 119, 119, 46, 99, 114, 121, 112,
       116, 111, 112, 105, 97, 46, 99, 111, 46, 110, 122, 37, 50, 102, 97, 112,
       105, 37, 50, 102, 103, 101, 116, 98, 97, 108, 97, 110, 99, 101, 49, 55,
       48, 48, 48, 48, 48, 48, 48, 48, 48, 48, 48, 48, 48, 69, 85, 68, 66, 119,
       103, 122, 117, 109, 71, 109, 118, 74, 78, 107, 67, 116, 71, 66, 72, 68,
       81, 61, 61])]
    rw [(by decide : b64encode (hmacSha256 [116, 111, 112, 115, 101, 99, 114, 101, 116]
      [97, 112, 105, 107, 101, 121, 80, 79, 83, 84, 104, 116, 116, 112, 115, 37,
       51, 97, 37, 50, 102, 37, 50, 102, 119, 119, 119, 46, 99, 114, 121, 112,
       116, 111, 112, 105, 97, 46, 99, 111, 46, 110, 122, 37, 50, 102, 97, 112,
       105, 37, 50, 102, 103, 101, 116, 98, 97, 108, 97, 110, 99, 101, 49, 55,
       48, 48, 48, 48, 48, 48, 48, 48, 48, 48, 48, 48, 48, 69, 85, 68, 66, 119,
       103, 122, 117, 109, 71, 109, 118, 74, 78, 107, 67, 116, 71, 66, 72, 68,
       81, 61, 61]) = "NZMB/jt2o8jIR/vKhOTLG+WCyzksrvwbU4BlTpJulg4=")]
    rfl

/-- Witness for claim C1 at a small concrete credential pair. -/
theorem claim1_witness :
    pyB64decode "c2Vj" = some [115, 101, 99] ∧
    (Api.init "k" "c2Vj").secure_headers 1 "u" "b" =
      Except.ok [("Authorization", "amx " ++ "k" ++ ":" ++
          b64encode (hmacSha256 [115, 101, 99] (utf8Encode ("k" ++ "POST" ++
            strLower (quote_plus "u") ++ nonceOf 1 ++
            b64encode (md5 (utf8Encode "b"))))) ++ ":" ++ nonceOf 1),
        ("Content-Type", "application/json; charset=utf-8")] :=
  ⟨by decide, claim1.1 "k" "c2Vj" "u" "b" 1 [115, 101, 99] (by decide)⟩

/-- Claim C10: a private call with the body-parameter mapping absent
(Python `None`) serializes the body to the four-character literal "null",
signs that exact string, and POSTs it — no error is raised and the body is
not empty. -/
theorem claim10 :
    ∀ (key secret : String) (t : ℚ) (f : String)
      (gp : Option (List (String × String))) (dk : List Nat),
      f ∈ privateOps → pyB64decode secret = some dk →
      pyJsonDumps Json.null = "null" ∧
      (Api.init key secret).api_query t f gp Json.null =
        Except.ok (HttpCall.post ("https://www.cryptopia.co.nz/Api/" ++ f) "null"
          [("Authorization", "amx " ++ key ++ ":" ++
              b64encode (hmacSha256 dk (utf8Encode (key ++ "POST" ++
                strLower (quote_plus ("https://www.cryptopia.co.nz/Api/" ++ f)) ++
                nonceOf t ++ b64encode (md5 (utf8Encode "null"))))) ++ ":" ++ nonceOf t),
           ("Content-Type", "application/json; charset=utf-8")]) := by
  intro key secret t f gp dk hf h
  have hd : pyJsonDumps Json.null = "null" := by simp [pyJsonDumps]
  refine ⟨hd, ?_⟩
  rw [api_query_private key secret t f gp Json.null hf]
  rw [hd]
  rw [secure_headers_ok key secret t ("https://www.cryptopia.co.nz/Api/" ++ f) "null" dk h]

set_option maxRecDepth 40000 in
set_option maxHeartbeats 2000000 in
/-- Witness for claim C10 at a concrete private call, with the produced
authorization header checked against a precomputed reference value. -/
theorem claim10_witness :
    pyB64decode "c2Vj" = some [115, 101, 99] ∧
    "GetBalance" ∈ privateOps ∧
    (Api.init "k2" "c2Vj").api_query 1 "GetBalance" none Json.null =
      Except.ok (HttpCall.post "https://www.cryptopia.co.nz/Api/GetBalance" "null"
        [("Authorization", "amx k2:3M+fUwWcaBA6lj3vVw34Eq74TM/ouR3JBxdS5KyPkig=:100000"),
         ("Content-Type", "application/json; charset=utf-8")]) := by
  refine ⟨by decide, by decide, ?_⟩
  rw [(claim10 "k2" "c2Vj" 1 "GetBalance" none [115, 101, 99]
    (by decide) (by decide)).2]
  rw [nonceOf_eq 1 100000 (by norm_num)]
  rw [(by decide : toString ((100000 : ℕ) : ℤ) = "100000")]
  rw [(by decide : strLower (quote_plus ("https://www.cryptopia.co.nz/Api/" ++ "GetBalance")) =
    "https%3a%2f%2fwww.cryptopia.co.nz%2fapi%2fgetbalance")]
  rw [(by decide : b64encode (md5 (utf8Encode "null")) = "N6YlnMDB2uKZp4Zkid/wvQ==")]
  rw [(by decide : utf8Encode ("k2" ++ "POST" ++
    "https%3a%2f%2fwww.cryptopia.co.nz%2fapi%2fgetbalance" ++ "100000" ++
    "N6YlnMDB2uKZp4Zkid/wvQ==") =
    [107, 50, 80, 79, 83, 84, 104, 116, 116, 112, 115, 37, 51, 97, 37, 50, 102,
     37, 50, 102, 119, 119, 119, 46, 99, 114, 121, 112, 116, 111, 112, 105, 97,
     46, 99, 111, 46, 110, 122, 37, 50, 102, 97, 112, 105, 37, 50, 102, 103,
     101, 116, 98, 97, 108, 97, 110, 99, 101, 49, 48, 48, 48, 48, 48, 78, 54,
     89, 108, 110, 77, 68, 66, 50, 117, 75, 90, 112, 52, 90, 107, 105, 100, 47,
     119, 118, 81, 61, 61])]
  rw [(by decide : b64encode (hmacSha256 [115, 101, 99]
    [107, 50, 80, 79, 83, 84, 104, 116, 116, 112, 115, 37, 51, 97, 37, 50, 102,
     37, 50, 102, 119, 119, 119, 46, 99, 114, 121, 112, 116, 111, 112, 105, 97,
     46, 99, 111, 46, 110, 122, 37, 50, 102, 97, 112, 105, 37, 50, 102, 103,
     101, 116, 98, 97, 108, 97, 110, 99, 101, 49, 48, 48, 48, 48, 48, 78, 54,
     89, 108, 110, 77, 68, 66, 50, 117, 75, 90, 112, 52, 90, 107, 105, 100, 47,
     119, 118, 81, 61, 61]) = "3M+fUwWcaBA6lj3vVw34Eq74TM/ouR3JBxdS5KyPkig=")]
  rfl
